import Mathlib

/-!
Shallow embedding of the dynamic rescheduling policy engine of the
`Clone_Backend` repository (app `reservas`): the rule model and resolver
(`reservas/models.py`), the validation orchestrator and recommendation
generator (`reservas/validators.py`), the reschedule request serializer
(`reservas/serializers.py`) and the reschedule transaction of the views
(`reservas/views.py`).

Modelling conventions, used consistently below:

* Instants (`datetime`) are whole minutes since an epoch fixed at a Monday
  00:00, as integers.  Every constant the code manipulates (hours, days,
  hour-of-day probes) is a whole number of minutes; Python's microsecond
  resolution is immaterial at this granularity.  `weekday()` is 0 = Monday
  … 6 = Sunday, as in Python; `date()` is the floor day number.
* Python numbers that may genuinely be fractional (rule values coming from
  a `DecimalField` or JSON, money amounts) are exact rationals `ℚ`;
  IEEE-754 rounding of Python floats is idealised away.
* A Python value inspected by the engine is a `PyValue`; `json.loads` is an
  external collaborator and is carried in the store as an abstract decoding
  function `json_loads : String → Option PyValue` (`none` = decoding threw).
* Raisable checks return `Res ε α` (`ok` = normal return, `err` = a raised
  exception); Django querysets over the rule / booking / history tables are
  lists inside `Store`.
-/

/-- Python exceptions distinguished by the code's `except` clauses. -/
inductive PyExc where
  | attributeError
  | valueError
  | typeError
deriving DecidableEq, Repr

/-- Result of a Python call: a value or a raised exception of type `ε`. -/
inductive Res (ε : Type) (α : Type) where
  | ok (val : α)
  | err (e : ε)
deriving DecidableEq, Repr

/-- True exactly on a non-exceptional result. -/
def Res.isOk {ε α : Type} : Res ε α → Bool
  | .ok _ => true
  | .err _ => false

/-- A scalar element of a decoded JSON list.  `other` stands for any element
the engine never inspects structurally (nested containers, `None`, …). -/
inductive PyAtom where
  | int (n : ℤ)
  | float (q : ℚ)
  | bool (b : Bool)
  | str (s : String)
  | other
deriving DecidableEq, Repr

/-- A Python value as far as the engine inspects it: the four field types of
a rule plus decoded-JSON lists; `other` covers dicts and anything else the
`isinstance` tests of the code reject. -/
inductive PyValue where
  | int (n : ℤ)
  | float (q : ℚ)
  | bool (b : Bool)
  | str (s : String)
  | list (l : List PyAtom)
  | other
deriving DecidableEq, Repr

/-- Python's `isinstance(v, (int, float))` together with numeric coercion.
Note `bool` is a subclass of `int` in Python, so `True`/`False` count as the
numbers 1/0 — faithful to the `isinstance` tests in `validators.py`. -/
def toNum? : PyValue → Option ℚ
  | .int n => some (n : ℚ)
  | .float q => some q
  | .bool b => some (if b then 1 else 0)
  | _ => none

/-- Numeric view of a list element, with the same `bool ≤ int` subtlety. -/
def atomNum? : PyAtom → Option ℚ
  | .int n => some (n : ℚ)
  | .float q => some q
  | .bool b => some (if b then 1 else 0)
  | _ => none

/-- String view of a list element (`none` = calling `.lower()` on it would
raise `AttributeError`). -/
def atomStr? : PyAtom → Option String
  | .str s => some s
  | _ => none

/-- Python `int(q)` on a float: truncation toward zero. -/
def truncInt (q : ℚ) : ℤ := q.num.tdiv (q.den : ℤ)

/-- ASCII lower-casing of one character (`str.lower` restricted to the ASCII
day names the code manipulates). -/
def charLower (c : Char) : Char :=
  if 65 ≤ c.toNat ∧ c.toNat ≤ 90 then Char.ofNat (c.toNat + 32) else c

/-- ASCII `str.lower()`. -/
def strLower (s : String) : String := ⟨s.data.map charLower⟩

/-- Minutes in a day. -/
def minPerDay : ℤ := 1440

/-- Minutes in an hour. -/
def minPerHour : ℤ := 60

/-- Python `dt.date()` as a day number (floor division, epoch Monday). -/
def dateOf (t : ℤ) : ℤ := t.fdiv minPerDay

/-- Python `dt.weekday()`: 0 = Monday … 6 = Sunday. -/
def weekdayOf (t : ℤ) : ℤ := (dateOf t) % 7

/-- Python `dt.hour`: hour of the day, 0–23. -/
def hourOf (t : ℤ) : ℤ := (t.fdiv minPerHour) % 24

/-- Python `(a - b).days` of a `timedelta`: floor of the day difference. -/
def diasDelta (a b : ℤ) : ℤ := (a - b).fdiv minPerDay

/-- The comparison `dt_minutes ≤ h hours` for a rational number of hours,
done exactly by cross-multiplication (`h.den > 0`).  Models
`candidate ≤ now + timedelta(hours=h)` with `dt = candidate - now`. -/
def leHoras (dt : ℤ) (h : ℚ) : Bool := dt * (h.den : ℤ) ≤ 60 * h.num

/-- The strict comparison `dt_minutes > h hours`, exactly. -/
def gtHoras (dt : ℤ) (h : ℚ) : Bool := dt * (h.den : ℤ) > 60 * h.num

/-- One row of `ReglasReprogramacion` (reservas/models.py).  The four
`valor_*` columns are independently nullable, exactly as in the model. -/
structure ReglasReprogramacion where
  nombre : String
  tipo_regla : String
  aplicable_a : String
  valor_numerico : Option ℤ
  valor_decimal : Option ℚ
  valor_texto : Option String
  valor_booleano : Option Bool
  fecha_inicio_vigencia : Option ℤ
  fecha_fin_vigencia : Option ℤ
  activa : Bool
  prioridad : ℕ
  mensaje_error : Option String
deriving DecidableEq, Repr

/-- One `ReservaServicio` line of a booking, with the joined service title
used by the restricted-services and availability checks. -/
structure Detalle where
  servicio_id : ℕ
  servicio_titulo : String
  cantidad : ℕ
deriving DecidableEq, Repr

/-- The `Reserva` aggregate (reservas/models.py), restricted to the fields
the rescheduling engine reads or writes. -/
structure Reserva where
  id : ℕ
  fecha_inicio : ℤ
  estado : String
  total : ℚ
  fecha_original : Option ℤ
  fecha_reprogramacion : Option ℤ
  motivo_reprogramacion : Option String
  numero_reprogramaciones : ℕ
  reprogramado_por : Option ℕ
  detalles : List Detalle
deriving DecidableEq, Repr

/-- One `HistorialReprogramacion` row. -/
structure HistorialReprogramacion where
  reserva_id : ℕ
  fecha_anterior : ℤ
  fecha_nueva : ℤ
  motivo : String
  reprogramado_por : Option ℕ
  notificacion_enviada : Bool
  created_at : ℤ
deriving DecidableEq, Repr

/-- A caller: identity plus role names from the identity provider. -/
structure Usuario where
  id : ℕ
  roles : List String
deriving DecidableEq, Repr

/-- The read snapshot the engine evaluates against: the rule table, the
booking table, the reschedule history, plus the external JSON decoder. -/
structure Store where
  reglas : List ReglasReprogramacion
  reservas : List Reserva
  historial : List HistorialReprogramacion
  json_loads : String → Option PyValue

/-- `ReglasReprogramacion.es_aplicable_a_rol` (models.py): an `ALL` rule
applies to every role; the two compound targets each match two roles. -/
def es_aplicable_a_rol (r : ReglasReprogramacion) (rol : String) : Bool :=
  if r.aplicable_a = "ALL" then true
  else if r.aplicable_a = rol then true
  else if r.aplicable_a = "CLIENTE_OPERADOR" ∧ (rol = "CLIENTE" ∨ rol = "OPERADOR") then true
  else if r.aplicable_a = "OPERADOR_ADMIN" ∧ (rol = "OPERADOR" ∨ rol = "ADMIN") then true
  else false

/-- `ReglasReprogramacion.obtener_valor` (models.py): fixed precedence over
the four value columns; a non-empty text value is JSON-decoded when possible
and falls back to the raw text (the bare `except` around `json.loads`). -/
def obtener_valor (js : String → Option PyValue) (r : ReglasReprogramacion) : Option PyValue :=
  match r.valor_numerico with
  | some n => some (PyValue.int n)
  | none =>
    match r.valor_decimal with
    | some q => some (PyValue.float q)
    | none =>
      match r.valor_booleano with
      | some b => some (PyValue.bool b)
      | none =>
        match r.valor_texto with
        | some s => if s = "" then none else some ((js s).getD (PyValue.str s))
        | none => none

/-- The queryset `filter(tipo_regla=…, activa=True).order_by('prioridad')`
of `obtener_regla_activa`, with a stable sort on `prioridad`. -/
def reglas_activas_ordenadas (s : Store) (tipo : String) : List ReglasReprogramacion :=
  List.insertionSort (fun a b => a.prioridad ≤ b.prioridad)
    (s.reglas.filter (fun r => r.tipo_regla = tipo ∧ r.activa))

/-- `ReglasReprogramacion.obtener_regla_activa` (models.py): first rule of
the priority-ordered active rules of the type that is applicable to `rol`.
Note the validity-window columns are ignored, as in the source. -/
def obtener_regla_activa (s : Store) (tipo rol : String) : Option ReglasReprogramacion :=
  (reglas_activas_ordenadas s tipo).find? (fun r => es_aplicable_a_rol r rol)

/-- `ReglasReprogramacion.obtener_valor_regla` (models.py): value of the
resolved rule, or the default when no rule resolves. -/
def obtener_valor_regla (s : Store) (tipo rol : String) (default : Option PyValue) :
    Option PyValue :=
  match obtener_regla_activa s tipo rol with
  | some regla => obtener_valor s.json_loads regla
  | none => default

/-- `ValidadorReprogramacionDinamico._obtener_roles_usuario`: the caller's
role names with `ALL` always appended. -/
def roles_de_usuario (usuario : Option Usuario) : List String :=
  match usuario with
  | some u => u.roles ++ ["ALL"]
  | none => ["ALL"]

/-- The `for rol in self.roles: regla = obtener_regla_activa(tipo, rol);
if regla: …; break` pattern repeated throughout `validators.py`: the rule of
the first role that yields one. -/
def primera_regla (s : Store) (tipo : String) (roles : List String) :
    Option ReglasReprogramacion :=
  roles.findSome? (fun rol => obtener_regla_activa s tipo rol)

/-- Python truthiness of `regla.mensaje_error or default`: `None` and the
empty string both fall back to the default message. -/
def mensaje_o (r : ReglasReprogramacion) (default : String) : String :=
  match r.mensaje_error with
  | some m => if m = "" then default else m
  | none => default

/-- The `for rol in roles` walk, keeping the role that yielded the rule
(used by `_obtener_reglas_aplicadas`, which records it). -/
def primera_regla_con_rol (s : Store) (tipo : String) (roles : List String) :
    Option (String × ReglasReprogramacion) :=
  roles.findSome? (fun rol =>
    match obtener_regla_activa s tipo rol with
    | some regla => some (rol, regla)
    | none => none)

/-- Python string formatting of a number inside an f-string, idealised to
the rational's canonical rendering (no claim depends on message text). -/
def fmtNum (q : ℚ) : String := toString q

/-- `_validar_fecha_basica`: candidate strictly in the future and at most
730 days (2 years) ahead; both checks append independently. -/
def validar_fecha_basica (ahora nueva_fecha : ℤ) (errs : List String) : List String :=
  let errs1 :=
    if nueva_fecha ≤ ahora then errs ++ ["No se puede reprogramar a una fecha pasada."]
    else errs
  if nueva_fecha > ahora + minPerDay * 730 then
    errs1 ++ ["No se puede reprogramar más de 2 años en el futuro."]
  else errs1

/-- `_validar_estado_reserva`: a cancelled booking cannot be rescheduled. -/
def validar_estado_reserva (reserva : Reserva) (errs : List String) : List String :=
  if reserva.estado = "CANCELADA" then
    errs ++ ["No se puede reprogramar una reserva cancelada."]
  else errs

/-- First half of `_aplicar_reglas_tiempo`: the TIEMPO_MINIMO walk.  The
violation test is `nueva_fecha <= ahora + timedelta(hours=valor)`. -/
def aplicar_tiempo_minimo (s : Store) (roles : List String) (ahora nueva_fecha : ℤ)
    (errs : List String) : List String :=
  match primera_regla s "TIEMPO_MINIMO" roles with
  | none => errs
  | some regla =>
    match (obtener_valor s.json_loads regla).bind toNum? with
    | some valor =>
      if leHoras (nueva_fecha - ahora) valor then
        errs ++ [mensaje_o regla
          ("Debe reprogramar con al menos " ++ fmtNum valor ++ " horas de anticipación.")]
      else errs
    | none => errs

/-- Second half of `_aplicar_reglas_tiempo`: the TIEMPO_MAXIMO walk.  The
violation test is `nueva_fecha > ahora + timedelta(hours=valor)`. -/
def aplicar_tiempo_maximo (s : Store) (roles : List String) (ahora nueva_fecha : ℤ)
    (errs : List String) : List String :=
  match primera_regla s "TIEMPO_MAXIMO" roles with
  | none => errs
  | some regla =>
    match (obtener_valor s.json_loads regla).bind toNum? with
    | some valor =>
      if gtHoras (nueva_fecha - ahora) valor then
        errs ++ [mensaje_o regla
          ("No puede reprogramar más de " ++ fmtNum (valor / 24) ++ " días en el futuro.")]
      else errs
    | none => errs

/-- `_aplicar_reglas_tiempo`: minimum then maximum lead-time walk.  Note the
source applies no default when no rule resolves: each walk simply ends. -/
def aplicar_reglas_tiempo (s : Store) (roles : List String) (ahora nueva_fecha : ℤ)
    (errs : List String) : List String :=
  aplicar_tiempo_maximo s roles ahora nueva_fecha
    (aplicar_tiempo_minimo s roles ahora nueva_fecha errs)

/-- First half of `_aplicar_reglas_limites`: LIMITE_REPROGRAMACIONES, with
Python's `int(...)` truncation of the configured value. -/
def aplicar_limite_reprogramaciones (s : Store) (roles : List String) (reserva : Reserva)
    (errs : List String) : List String :=
  match primera_regla s "LIMITE_REPROGRAMACIONES" roles with
  | none => errs
  | some regla =>
    match (obtener_valor s.json_loads regla).bind toNum? with
    | some limite =>
      if (reserva.numero_reprogramaciones : ℤ) ≥ truncInt limite then
        errs ++ [mensaje_o regla
          ("Ha alcanzado el límite de " ++ fmtNum limite ++ " reprogramaciones.")]
      else errs
    | none => errs

/-- Second half of `_aplicar_reglas_limites`: LIMITE_DIARIO.  In the source
the loop `break`s only when both the rule and `self.usuario` are truthy, and
appends only then; with no user nothing is ever appended, modelled by the
outer match. -/
def aplicar_limite_diario (s : Store) (roles : List String) (usuario : Option Usuario)
    (ahora : ℤ) (errs : List String) : List String :=
  match usuario with
  | none => errs
  | some u =>
    match primera_regla s "LIMITE_DIARIO" roles with
    | none => errs
    | some regla =>
      match (obtener_valor s.json_loads regla).bind toNum? with
      | some limite =>
        let hoy := dateOf ahora
        let reprogramaciones_hoy :=
          (s.historial.filter (fun h =>
            h.reprogramado_por = some u.id ∧ dateOf h.created_at = hoy)).length
        if (reprogramaciones_hoy : ℤ) ≥ truncInt limite then
          errs ++ [mensaje_o regla
            ("Ha alcanzado el límite diario de " ++ fmtNum limite ++ " reprogramaciones.")]
        else errs
      | none => errs

/-- `_aplicar_reglas_limites`: per-booking limit walk then daily limit walk. -/
def aplicar_reglas_limites (s : Store) (roles : List String) (usuario : Option Usuario)
    (ahora : ℤ) (reserva : Reserva) (errs : List String) : List String :=
  aplicar_limite_diario s roles usuario ahora
    (aplicar_limite_reprogramaciones s roles reserva errs)

/-- First half of `_aplicar_reglas_blackout`: DIAS_BLACKOUT.  The body runs
under `try: … except (ValueError, TypeError): pass`; `d.lower()` on a
non-string list element raises `AttributeError`, which that clause does not
catch, so it propagates.  A non-list value fails the `isinstance` test and
is silently skipped (fail-open). -/
def aplicar_dias_blackout (s : Store) (roles : List String) (nueva_fecha : ℤ)
    (errs : List String) : Res PyExc (List String) :=
  match primera_regla s "DIAS_BLACKOUT" roles with
  | none => .ok errs
  | some regla =>
    let cuerpo : Res PyExc (List String) :=
      match obtener_valor s.json_loads regla with
      | some (PyValue.list dias_blackout) =>
        if dias_blackout.all (fun d => (atomStr? d).isSome) then
          let dia_semana := weekdayOf nueva_fecha
          let nombres_dias :=
            ["lunes", "martes", "miercoles", "jueves", "viernes", "sabado", "domingo"]
          let nombre := nombres_dias.getD dia_semana.toNat ""
          if ((dias_blackout.filterMap atomStr?).map strLower).contains nombre then
            .ok (errs ++ [mensaje_o regla ("No se puede reprogramar en " ++ nombre ++ ".")])
          else .ok errs
        else .err PyExc.attributeError
      | _ => .ok errs
    match cuerpo with
    | .ok errs2 => .ok errs2
    | .err e => if e = PyExc.valueError ∨ e = PyExc.typeError then .ok errs else .err e

/-- Second half of `_aplicar_reglas_blackout`: HORAS_BLACKOUT.  Membership
`hora in horas_blackout` uses Python numeric equality (floats and booleans
compare equal to equal integers) and cannot raise, so the surrounding
`try/except` never fires and the step is total. -/
def aplicar_horas_blackout (s : Store) (roles : List String) (nueva_fecha : ℤ)
    (errs : List String) : List String :=
  match primera_regla s "HORAS_BLACKOUT" roles with
  | none => errs
  | some regla =>
    match obtener_valor s.json_loads regla with
    | some (PyValue.list horas_blackout) =>
      let hora_nueva := hourOf nueva_fecha
      if horas_blackout.any (fun a => atomNum? a == some ((hora_nueva : ℚ))) then
        errs ++ [mensaje_o regla
          ("No se puede reprogramar a las " ++ toString hora_nueva ++ ":00 horas.")]
      else errs
    | _ => errs

/-- `_aplicar_reglas_blackout`: days walk (may raise) then hours walk. -/
def aplicar_reglas_blackout (s : Store) (roles : List String) (nueva_fecha : ℤ)
    (errs : List String) : Res PyExc (List String) :=
  match aplicar_dias_blackout s roles nueva_fecha errs with
  | .ok errs2 => .ok (aplicar_horas_blackout s roles nueva_fecha errs2)
  | .err e => .err e

/-- `_aplicar_reglas_servicios`: one violation per booking line whose service
title appears in the configured list (string equality; a non-list value is
skipped; nothing in the body can raise). -/
def aplicar_reglas_servicios (s : Store) (roles : List String) (reserva : Reserva)
    (errs : List String) : List String :=
  match primera_regla s "SERVICIOS_RESTRINGIDOS" roles with
  | none => errs
  | some regla =>
    match obtener_valor s.json_loads regla with
    | some (PyValue.list servicios_restringidos) =>
      let servicios_reserva := reserva.detalles.map (fun d => d.servicio_titulo)
      errs ++ (servicios_reserva.filter
          (fun t => servicios_restringidos.contains (PyAtom.str t))).map
        (fun servicio => mensaje_o regla
          ("El servicio \x27" ++ servicio ++ "\x27 tiene restricciones para reprogramar."))
    | _ => errs

/-- `_aplicar_reglas_capacidad`: count other active bookings on the
candidate's date (statuses PENDIENTE/PAGADA/REPROGRAMADA, excluding this
booking) against the configured cap; nothing in the body can raise. -/
def aplicar_reglas_capacidad (s : Store) (roles : List String) (nueva_fecha : ℤ)
    (reserva : Reserva) (errs : List String) : List String :=
  match primera_regla s "CAPACIDAD_MAXIMA" roles with
  | none => errs
  | some regla =>
    match (obtener_valor s.json_loads regla).bind toNum? with
    | some capacidad_maxima =>
      let reservas_fecha :=
        (s.reservas.filter (fun r =>
          dateOf r.fecha_inicio = dateOf nueva_fecha ∧
          (r.estado = "PENDIENTE" ∨ r.estado = "PAGADA" ∨ r.estado = "REPROGRAMADA") ∧
          r.id ≠ reserva.id)).length
      if (reservas_fecha : ℤ) ≥ truncInt capacidad_maxima then
        errs ++ [mensaje_o regla
          ("La fecha alcanzó la capacidad máxima de " ++ fmtNum capacidad_maxima ++ " reservas.")]
      else errs
    | none => errs

/-- The availability component of the verdict. -/
structure Disponibilidad where
  disponible : Bool
  conflictos : ℕ
  servicios_conflictivos : List String
deriving DecidableEq, Repr

/-- The joined queryset of `_verificar_disponibilidad`: other active
bookings on the candidate's date joined against their matching service
lines — one row per (booking, matching line), so `.count()` and the title
`values_list` see duplicated bookings, per Django join semantics. -/
def filas_conflicto (s : Store) (nueva_fecha : ℤ) (reserva : Reserva) :
    List (Reserva × Detalle) :=
  let servicios_ids := reserva.detalles.map (fun d => d.servicio_id)
  (s.reservas.filter (fun r =>
    dateOf r.fecha_inicio = dateOf nueva_fecha ∧
    (r.estado = "PENDIENTE" ∨ r.estado = "PAGADA" ∨ r.estado = "REPROGRAMADA") ∧
    r.id ≠ reserva.id)).flatMap
    (fun r => (r.detalles.filter (fun d => servicios_ids.contains d.servicio_id)).map
      (fun d => (r, d)))

/-- `_verificar_disponibilidad`: available iff no conflicting row exists. -/
def verificar_disponibilidad (s : Store) (nueva_fecha : ℤ) (reserva : Reserva) :
    Disponibilidad :=
  let filas := filas_conflicto s nueva_fecha reserva
  { disponible := filas.isEmpty
    conflictos := filas.length
    servicios_conflictivos := filas.map (fun f => f.2.servicio_titulo) }

/-- The penalty component of the verdict. -/
structure Penalizacion where
  aplica_penalizacion : Bool
  porcentaje : ℚ
  monto : ℚ
  total_con_penalizacion : ℚ
deriving DecidableEq, Repr

/-- `_calcular_penalizacion`: resolve DESCUENTO_PENALIZACION over the role
walk (0 when no rule or a non-numeric value); the amount is computed only
when the percentage is strictly positive, otherwise it stays 0. -/
def calcular_penalizacion (s : Store) (roles : List String) (reserva : Reserva) :
    Penalizacion :=
  let penalizacion_pct : ℚ :=
    match primera_regla s "DESCUENTO_PENALIZACION" roles with
    | some regla => ((obtener_valor s.json_loads regla).bind toNum?).getD 0
    | none => 0
  let penalizacion_monto : ℚ :=
    if 0 < penalizacion_pct then reserva.total * (penalizacion_pct / 100) else 0
  { aplica_penalizacion := decide (0 < penalizacion_pct)
    porcentaje := penalizacion_pct
    monto := penalizacion_monto
    total_con_penalizacion := reserva.total + penalizacion_monto }

/-- One entry of the audit list `reglas_aplicadas`. -/
structure ReglaAplicada where
  tipo : String
  rol : String
  nombre : String
  valor : Option PyValue
  prioridad : ℕ
deriving DecidableEq, Repr

/-- The nine rule types `_obtener_reglas_aplicadas` iterates, in order. -/
def tipos_reglas : List String :=
  ["TIEMPO_MINIMO", "TIEMPO_MAXIMO", "LIMITE_REPROGRAMACIONES",
   "LIMITE_DIARIO", "DIAS_BLACKOUT", "HORAS_BLACKOUT",
   "SERVICIOS_RESTRINGIDOS", "CAPACIDAD_MAXIMA", "DESCUENTO_PENALIZACION"]

/-- `_obtener_reglas_aplicadas`: for each type, the first rule found by the
role walk, recorded with the role that yielded it. -/
def obtener_reglas_aplicadas (s : Store) (roles : List String) : List ReglaAplicada :=
  tipos_reglas.filterMap (fun tipo =>
    (primera_regla_con_rol s tipo roles).map (fun par =>
      { tipo := tipo, rol := par.1, nombre := par.2.nombre,
        valor := obtener_valor s.json_loads par.2, prioridad := par.2.prioridad }))

/-- The `metadatos` component of the verdict. -/
structure Metadatos where
  usuario_roles : List String
  fecha_validacion : ℤ
  numero_reglas_evaluadas : ℕ
deriving DecidableEq, Repr

/-- The structured verdict returned by the orchestrator. -/
structure Resultado where
  valida : Bool
  errores : List String
  warnings : List String
  disponibilidad : Disponibilidad
  penalizacion : Penalizacion
  reglas_aplicadas : List ReglaAplicada
  metadatos : Metadatos
deriving DecidableEq, Repr

/-- The mutable instance state of `ValidadorReprogramacionDinamico`: its
`errores` and `warnings` lists. -/
structure ValidadorState where
  errores : List String
  warnings : List String
deriving DecidableEq, Repr

/-- `ValidadorReprogramacionDinamico.validar_reprogramacion_completa`: the
validation orchestrator.  It first clears `self.errores`/`self.warnings`
(so the incoming instance state is discarded), runs every check in source
order accumulating violations, and returns the verdict; the uncaught
`AttributeError` of the days-blackout step propagates as `Res.err`.  All
`timezone.now()` reads during one call are the single instant `ahora`. -/
def validar_reprogramacion_completa (s : Store) (usuario : Option Usuario)
    (reserva : Reserva) (nueva_fecha : ℤ) (_motivo : String) (ahora : ℤ)
    (_st : ValidadorState) : ValidadorState × Res PyExc Resultado :=
  let roles := roles_de_usuario usuario
  let errs0 : List String := []
  let errs1 := validar_fecha_basica ahora nueva_fecha errs0
  let errs2 := validar_estado_reserva reserva errs1
  let errs3 := aplicar_reglas_tiempo s roles ahora nueva_fecha errs2
  let errs4 := aplicar_reglas_limites s roles usuario ahora reserva errs3
  match aplicar_reglas_blackout s roles nueva_fecha errs4 with
  | .err e => ({ errores := errs4, warnings := [] }, .err e)
  | .ok errs5 =>
    let errs6 := aplicar_reglas_servicios s roles reserva errs5
    let errs7 := aplicar_reglas_capacidad s roles nueva_fecha reserva errs6
    let disponibilidad := verificar_disponibilidad s nueva_fecha reserva
    let penalizacion := calcular_penalizacion s roles reserva
    let reglas := obtener_reglas_aplicadas s roles
    ({ errores := errs7, warnings := [] },
     .ok { valida := errs7.isEmpty
           errores := errs7
           warnings := []
           disponibilidad := disponibilidad
           penalizacion := penalizacion
           reglas_aplicadas := reglas
           metadatos := { usuario_roles := roles
                          fecha_validacion := ahora
                          numero_reglas_evaluadas := reglas.length } })

/-- `GeneradorRecomendaciones._calcular_score`: closeness (10 minus the
absolute day distance, floored at 0) plus availability bonus (5/0) plus
penalty adjustment (−2/+2).  All summands are integers. -/
def calcular_score (fecha_deseada fecha_candidata : ℤ) (resultado : Resultado) : ℤ :=
  let diferencia_dias : ℤ := ((diasDelta fecha_candidata fecha_deseada).natAbs : ℤ)
  let score_cercania := max 0 (10 - diferencia_dias)
  let score_disponibilidad : ℤ := if resultado.disponibilidad.disponible then 5 else 0
  let score_penalizacion : ℤ := if resultado.penalizacion.aplica_penalizacion then -2 else 2
  score_cercania + score_disponibilidad + score_penalizacion

/-- One suggested alternative date, as recorded by the generator. -/
structure Sugerencia where
  fecha : ℤ
  disponible : Bool
  conflictos : ℕ
  penalizacion : Penalizacion
  score : ℤ
deriving DecidableEq, Repr

/-- The inner `for hora_offset in [0, 1, -1, 2, -2]` loop of
`sugerir_fechas_alternativas`: probe each hour, append a suggestion for a
valid verdict, break once `cantidad` suggestions are collected.  The shared
validator instance clears its state on every call, so each probe runs from
the empty state. -/
def probar_horas (s : Store) (usuario : Option Usuario) (reserva : Reserva)
    (fecha_deseada : ℤ) (cantidad : ℕ) (ahora : ℤ) (fecha_candidata : ℤ) :
    List ℤ → List Sugerencia → Res PyExc (List Sugerencia)
  | [], acc => .ok acc
  | hora_offset :: resto, acc =>
    let fecha_con_hora := fecha_candidata + minPerHour * hora_offset
    match (validar_reprogramacion_completa s usuario reserva fecha_con_hora "" ahora
        ⟨[], []⟩).2 with
    | .err e => .err e
    | .ok resultado =>
      if resultado.valida then
        let acc2 := acc ++ [{ fecha := fecha_con_hora
                              disponible := resultado.disponibilidad.disponible
                              conflictos := resultado.disponibilidad.conflictos
                              penalizacion := resultado.penalizacion
                              score := calcular_score fecha_deseada fecha_con_hora resultado }]
        if cantidad ≤ acc2.length then .ok acc2
        else probar_horas s usuario reserva fecha_deseada cantidad ahora fecha_candidata resto acc2
      else probar_horas s usuario reserva fecha_deseada cantidad ahora fecha_candidata resto acc

/-- The outer `for dias_offset in range(-7, 15)` loop: skip offset 0, probe
the day's hour candidates, stop once `cantidad` suggestions are collected. -/
def probar_dias (s : Store) (usuario : Option Usuario) (reserva : Reserva)
    (fecha_deseada : ℤ) (cantidad : ℕ) (ahora : ℤ) :
    List ℤ → List Sugerencia → Res PyExc (List Sugerencia)
  | [], acc => .ok acc
  | dias_offset :: resto, acc =>
    if dias_offset = 0 then
      probar_dias s usuario reserva fecha_deseada cantidad ahora resto acc
    else
      let fecha_candidata := fecha_deseada + minPerDay * dias_offset
      match probar_horas s usuario reserva fecha_deseada cantidad ahora fecha_candidata
          [0, 1, -1, 2, -2] acc with
      | .err e => .err e
      | .ok acc2 =>
        if cantidad ≤ acc2.length then .ok acc2
        else probar_dias s usuario reserva fecha_deseada cantidad ahora resto acc2

/-- The day offsets `range(-7, 15)`: one week back to two weeks ahead. -/
def dias_offsets : List ℤ := (List.range 22).map (fun i => (i : ℤ) - 7)

/-- `GeneradorRecomendaciones.sugerir_fechas_alternativas`: bounded scan of
nearby dates, keeping the first `cantidad` candidates with a valid verdict,
then a stable sort by score descending (Python `sort(reverse=True)`) and a
final truncation to `cantidad`. -/
def sugerir_fechas_alternativas (s : Store) (reserva : Reserva) (fecha_deseada : ℤ)
    (usuario : Option Usuario) (cantidad : ℕ) (ahora : ℤ) : Res PyExc (List Sugerencia) :=
  match probar_dias s usuario reserva fecha_deseada cantidad ahora dias_offsets [] with
  | .err e => .err e
  | .ok sugerencias =>
    .ok ((List.insertionSort (fun a b => b.score ≤ a.score) sugerencias).take cantidad)

/-- Python rendering of a `PyValue` inside an f-string, idealised (no claim
depends on message text). -/
def pyStr : PyValue → String
  | .int n => toString n
  | .float q => fmtNum q
  | .bool b => if b then "True" else "False"
  | .str s => s
  | .list _ => "[...]"
  | .other => "..."

/-- The message-lookup quirk of the serializer: on a violation it re-queries
`obtener_regla_activa(tipo, roles[0] if roles else 'ALL')` — only the first
role, not the walk that resolved the enforced rule — for a custom message. -/
def mensaje_regla_primer_rol (s : Store) (tipo : String) (roles : List String)
    (default : String) : String :=
  match obtener_regla_activa s tipo (roles.headD "ALL") with
  | some regla => mensaje_o regla default
  | none => default

/-- `ReprogramacionReservaSerializer.validate_nueva_fecha` (serializers.py):
rejects past candidates, then enforces the TIEMPO_MINIMO walk with default
24 h when no rule (or a valueless rule) resolves, then the TIEMPO_MAXIMO
walk with default 365·24 h.  The DIAS_BLACKOUT and HORAS_BLACKOUT blocks
raise their `ValidationError` inside `try: … except: pass`, so the bare
`except` swallows the rejection and both blocks are behavioural no-ops. -/
def validate_nueva_fecha (s : Store) (roles : List String) (ahora value : ℤ) :
    Res String Unit :=
  if value ≤ ahora then .err "No se puede reprogramar a una fecha pasada."
  else
    let tiempo_minimo : PyValue :=
      (match primera_regla s "TIEMPO_MINIMO" (roles ++ ["ALL"]) with
       | some regla => obtener_valor s.json_loads regla
       | none => none).getD (PyValue.int 24)
    let min_falla : Option String :=
      match toNum? tiempo_minimo with
      | some h =>
        if leHoras (value - ahora) h then
          some (mensaje_regla_primer_rol s "TIEMPO_MINIMO" roles
            ("La reprogramación debe hacerse con al menos " ++ pyStr tiempo_minimo ++
             " horas de anticipación."))
        else none
      | none => none
    match min_falla with
    | some m => .err m
    | none =>
      let tiempo_maximo : PyValue :=
        (match primera_regla s "TIEMPO_MAXIMO" (roles ++ ["ALL"]) with
         | some regla => obtener_valor s.json_loads regla
         | none => none).getD (PyValue.int (365 * 24))
      let max_falla : Option String :=
        match toNum? tiempo_maximo with
        | some h =>
          if gtHoras (value - ahora) h then
            some (mensaje_regla_primer_rol s "TIEMPO_MAXIMO" roles
              ("No se puede reprogramar más de " ++ fmtNum (h / 24) ++ " días en el futuro."))
          else none
        | none => none
      match max_falla with
      | some m => .err m
      | none => .ok ()

/-- `ReprogramacionReservaSerializer.validate` with a booking in context:
cancelled-state check, LIMITE_REPROGRAMACIONES walk with default 3, then
the same-calendar-date rejection.  The restricted-services block raises its
`ValidationError` inside `try: … except: pass` and is likewise swallowed. -/
def serializer_validate (s : Store) (roles : List String) (reserva : Reserva)
    (nueva_fecha : ℤ) : Res String Unit :=
  if reserva.estado = "CANCELADA" then
    .err "No se puede reprogramar una reserva cancelada."
  else
    let limite : PyValue :=
      (match primera_regla s "LIMITE_REPROGRAMACIONES" (roles ++ ["ALL"]) with
       | some regla => obtener_valor s.json_loads regla
       | none => none).getD (PyValue.int 3)
    let lim_falla : Option String :=
      match toNum? limite with
      | some q =>
        if (reserva.numero_reprogramaciones : ℤ) ≥ truncInt q then
          some (mensaje_regla_primer_rol s "LIMITE_REPROGRAMACIONES" roles
            ("Esta reserva ya ha sido reprogramada el máximo número de veces permitido (" ++
             pyStr limite ++ ")."))
        else none
      | none => none
    match lim_falla with
    | some m => .err m
    | none =>
      if dateOf nueva_fecha = dateOf reserva.fecha_inicio then
        .err "La nueva fecha debe ser diferente a la fecha actual."
      else .ok ()

/-- DRF `serializer.is_valid(raise_exception=True)` for the reschedule
serializer: field validation (`validate_nueva_fecha`) first; object-level
`validate` only when it passed. -/
def serializer_is_valid (s : Store) (roles : List String) (reserva : Reserva)
    (ahora nueva_fecha : ℤ) : Res String Unit :=
  match validate_nueva_fecha s roles ahora nueva_fecha with
  | .err m => .err m
  | .ok _ => serializer_validate s roles reserva nueva_fecha

/-- The atomic mutation of `ReservaViewSet.reprogramar` (views.py, and the
identical block of `GestionReprogramacionAPIView.post`): capture the
previous start, set `fecha_original` only when it is unset (`None` is the
only falsy `datetime`), move the start, mark RESCHEDULED, bump the count,
and append the history row whose `notificacion_enviada` records the
conjunction of the two best-effort notification outcomes. -/
def reprogramar_commit (reserva : Reserva) (nueva_fecha : ℤ) (motivo : String)
    (usuario_id : ℕ) (ahora : ℤ) (notif_cliente notif_soporte : Bool) :
    Reserva × HistorialReprogramacion :=
  let fecha_anterior := reserva.fecha_inicio
  let reserva2 : Reserva :=
    { reserva with
      fecha_original :=
        match reserva.fecha_original with
        | none => some fecha_anterior
        | some f => some f
      fecha_inicio := nueva_fecha
      estado := "REPROGRAMADA"
      fecha_reprogramacion := some ahora
      motivo_reprogramacion := some motivo
      numero_reprogramaciones := reserva.numero_reprogramaciones + 1
      reprogramado_por := some usuario_id }
  (reserva2,
   { reserva_id := reserva.id
     fecha_anterior := fecha_anterior
     fecha_nueva := nueva_fecha
     motivo := motivo
     reprogramado_por := some usuario_id
     notificacion_enviada := notif_cliente && notif_soporte
     created_at := ahora })

/-- `ReservaViewSet.reprogramar` after its permission gate: serializer
validation, then the availability re-check, then the atomic commit.
`_is_fecha_disponible` reads service/package occupancy data outside this
model and is kept opaque; every theorem below is independent of it. -/
def reprogramar_action (s : Store) (roles : List String) (usuario_id : ℕ)
    (reserva : Reserva) (nueva_fecha : ℤ) (motivo : String) (ahora : ℤ)
    (fecha_disponible : ℤ → Reserva → Bool) (notif_cliente notif_soporte : Bool) :
    Res String (Reserva × HistorialReprogramacion) :=
  match serializer_is_valid s roles reserva ahora nueva_fecha with
  | .err m => .err m
  | .ok _ =>
    if fecha_disponible nueva_fecha reserva then
      .ok (reprogramar_commit reserva nueva_fecha motivo usuario_id ahora
        notif_cliente notif_soporte)
    else .err "La nueva fecha no está disponible."

/-- Projection: the error list of a verdict, `none` on a raised exception. -/
def resultado_errores : Res PyExc Resultado → Option (List String)
  | .ok r => some r.errores
  | .err _ => none

/-- Projection: the `valida` flag of a verdict, `none` on a raised exception. -/
def resultado_valida : Res PyExc Resultado → Option Bool
  | .ok r => some r.valida
  | .err _ => none

/-- A JSON decoder that always fails, for fixtures whose rules carry no text
value (any decoder would do there). -/
def noJson : String → Option PyValue := fun _ => none

/-- Fixture: a rule with every optional column empty. -/
def reglaBase : ReglasReprogramacion :=
  { nombre := "regla"
    tipo_regla := ""
    aplicable_a := "ALL"
    valor_numerico := none
    valor_decimal := none
    valor_texto := none
    valor_booleano := none
    fecha_inicio_vigencia := none
    fecha_fin_vigencia := none
    activa := true
    prioridad := 1
    mensaje_error := none }

/-- Fixture: a pending booking of total 1000 with no service lines, starting
on day 0 at 12:00. -/
def reservaBase : Reserva :=
  { id := 1
    fecha_inicio := 720
    estado := "PENDIENTE"
    total := 1000
    fecha_original := none
    fecha_reprogramacion := none
    motivo_reprogramacion := none
    numero_reprogramaciones := 0
    reprogramado_por := none
    detalles := [] }

/-- Fixture: an empty rule/booking/history snapshot. -/
def storeVacia : Store :=
  { reglas := [], reservas := [], historial := [], json_loads := noJson }

/-- C7: two `evaluate` calls with identical inputs and unchanged store state
yield identical verdicts: the orchestrator's result does not depend on the
validator's incoming instance state (it clears `errores`/`warnings` first),
so a repeated call — even threading the mutated state of the first call —
returns the same verdict, and the store is never written. -/
theorem validacion_pura_idempotente (s : Store) (usuario : Option Usuario)
    (reserva : Reserva) (nueva_fecha : ℤ) (motivo : String) (ahora : ℤ)
    (st1 st2 : ValidadorState) :
    validar_reprogramacion_completa s usuario reserva nueva_fecha motivo ahora st1 =
      validar_reprogramacion_completa s usuario reserva nueva_fecha motivo ahora st2 ∧
    (validar_reprogramacion_completa s usuario reserva nueva_fecha motivo ahora
        (validar_reprogramacion_completa s usuario reserva nueva_fecha motivo ahora st1).1).2 =
      (validar_reprogramacion_completa s usuario reserva nueva_fecha motivo ahora st1).2 :=
  ⟨rfl, rfl⟩

/-- C9: `obtener_valor` selects among the four value columns by fixed
precedence — integer first, else decimal (as a float), else boolean, else
text (JSON-decoded when possible, raw text otherwise) — and returns `None`
when nothing is populated (Python truthiness makes an empty text column
count as unpopulated); populated lower-precedence columns are ignored, so
nothing enforces a single populated column at read time. -/
theorem obtener_valor_precedencia (js : String → Option PyValue)
    (r : ReglasReprogramacion) :
    (∀ n, r.valor_numerico = some n → obtener_valor js r = some (PyValue.int n)) ∧
    (r.valor_numerico = none → ∀ q, r.valor_decimal = some q →
      obtener_valor js r = some (PyValue.float q)) ∧
    (r.valor_numerico = none → r.valor_decimal = none → ∀ b, r.valor_booleano = some b →
      obtener_valor js r = some (PyValue.bool b)) ∧
    (r.valor_numerico = none → r.valor_decimal = none → r.valor_booleano = none →
      ∀ txt, r.valor_texto = some txt → txt ≠ "" →
      obtener_valor js r = some ((js txt).getD (PyValue.str txt))) ∧
    (r.valor_numerico = none → r.valor_decimal = none → r.valor_booleano = none →
      (r.valor_texto = none ∨ r.valor_texto = some "") → obtener_valor js r = none) := by
  refine ⟨?_, ?_, ?_, ?_, ?_⟩
  · intro n hn
    simp [obtener_valor, hn]
  · intro h0 q hq
    simp [obtener_valor, h0, hq]
  · intro h0 h1 b hb
    simp [obtener_valor, h0, h1, hb]
  · intro h0 h1 h2 txt ht hne
    simp [obtener_valor, h0, h1, h2, ht, hne]
  · intro h0 h1 h2 ht
    rcases ht with ht | ht <;> simp [obtener_valor, h0, h1, h2, ht]

/-- Fixture: a rule with all four value columns populated at once. -/
def reglaTodosValores : ReglasReprogramacion :=
  { reglaBase with
    valor_numerico := some 7
    valor_decimal := some 2
    valor_texto := some "hola"
    valor_booleano := some true }

/-- Fixture: a rule whose only value is undecodable text. -/
def reglaSoloTexto : ReglasReprogramacion :=
  { reglaBase with valor_texto := some "hola" }

/-- Witness for C9 at concrete rules: with every column populated the
integer wins; text-only falls back to the raw string under a failing
decoder; an all-empty rule yields `None`. -/
theorem obtener_valor_precedencia_witness :
    obtener_valor noJson reglaTodosValores = some (PyValue.int 7) ∧
    obtener_valor noJson reglaSoloTexto = some (PyValue.str "hola") ∧
    obtener_valor noJson reglaBase = none :=
  ⟨(obtener_valor_precedencia noJson reglaTodosValores).1 7 rfl,
   (obtener_valor_precedencia noJson reglaSoloTexto).2.2.2.1 rfl rfl rfl "hola" rfl
     (by decide),
   (obtener_valor_precedencia noJson reglaBase).2.2.2.2 rfl rfl rfl (Or.inl rfl)⟩

/-- C6: a committed reschedule writes `fecha_original` exactly once: when it
is unset the commit sets it to the pre-change start; when already set it is
left untouched, so a second reschedule never overwrites the value captured
by the first. -/
theorem fecha_original_se_escribe_una_vez (reserva : Reserva) (nf : ℤ) (m : String)
    (uid : ℕ) (ah : ℤ) (nc ns : Bool) :
    (reserva.fecha_original = none →
      (reprogramar_commit reserva nf m uid ah nc ns).1.fecha_original =
        some reserva.fecha_inicio) ∧
    (∀ f, reserva.fecha_original = some f →
      (reprogramar_commit reserva nf m uid ah nc ns).1.fecha_original = some f) ∧
    (reserva.fecha_original = none → ∀ nf2 m2 uid2 ah2 nc2 ns2,
      (reprogramar_commit (reprogramar_commit reserva nf m uid ah nc ns).1
          nf2 m2 uid2 ah2 nc2 ns2).1.fecha_original = some reserva.fecha_inicio) := by
  refine ⟨?_, ?_, ?_⟩
  · intro h
    simp [reprogramar_commit, h]
  · intro f h
    simp [reprogramar_commit, h]
  · intro h nf2 m2 uid2 ah2 nc2 ns2
    simp [reprogramar_commit, h]

/-- Witness for C6: the fixture booking has `fecha_original` unset; the
first commit stamps its start 720 and a second commit keeps 720. -/
theorem fecha_original_se_escribe_una_vez_witness :
    (reprogramar_commit reservaBase 2000 "" 1 100 true true).1.fecha_original =
      some 720 ∧
    (reprogramar_commit (reprogramar_commit reservaBase 2000 "" 1 100 true true).1
        3000 "" 2 200 true true).1.fecha_original = some 720 :=
  ⟨(fecha_original_se_escribe_una_vez reservaBase 2000 "" 1 100 true true).1 rfl,
   (fecha_original_se_escribe_una_vez reservaBase 2000 "" 1 100 true true).2.2 rfl
     3000 "" 2 200 true true⟩

/-- Membership in the ordered active-rule queryset is membership in the rule
table with matching type and the active flag. -/
theorem mem_reglas_activas_ordenadas {s : Store} {tipo : String}
    {r : ReglasReprogramacion} :
    r ∈ reglas_activas_ordenadas s tipo ↔
      r ∈ s.reglas ∧ r.tipo_regla = tipo ∧ r.activa = true := by
  unfold reglas_activas_ordenadas
  rw [(List.perm_insertionSort _ _).mem_iff, List.mem_filter]
  simp

/-- The active-rule queryset is sorted by ascending priority. -/
theorem sorted_reglas_activas_ordenadas (s : Store) (tipo : String) :
    (reglas_activas_ordenadas s tipo).Pairwise
      (fun a b => a.prioridad ≤ b.prioridad) := by
  unfold reglas_activas_ordenadas
  haveI : IsTotal ReglasReprogramacion (fun a b => a.prioridad ≤ b.prioridad) :=
    ⟨fun a b => Nat.le_total _ _⟩
  haveI : IsTrans ReglasReprogramacion (fun a b => a.prioridad ≤ b.prioridad) :=
    ⟨fun _ _ _ => Nat.le_trans⟩
  exact List.sorted_insertionSort _ _

/-- `find?` on a priority-sorted list returns a match of minimal priority. -/
theorem find?_min_prioridad {p : ReglasReprogramacion → Bool} :
    ∀ {L : List ReglasReprogramacion} {r : ReglasReprogramacion},
    L.Pairwise (fun a b => a.prioridad ≤ b.prioridad) → L.find? p = some r →
    ∀ r2 ∈ L, p r2 = true → r.prioridad ≤ r2.prioridad := by
  intro L
  induction L with
  | nil =>
    intro r _ h
    simp [List.find?] at h
  | cons a t ih =>
    intro r hs hf r2 hr2 hp2
    rw [List.pairwise_cons] at hs
    by_cases hpa : p a = true
    · rw [List.find?_cons_of_pos _ hpa] at hf
      cases hf
      rcases List.mem_cons.mp hr2 with rfl | h2
      · exact le_refl _
      · exact hs.1 r2 h2
    · rw [List.find?_cons_of_neg _ (by simp [hpa])] at hf
      rcases List.mem_cons.mp hr2 with rfl | h2
      · exact absurd hp2 hpa
      · exact ih hs.2 hf r2 h2 hp2

/-- C1 (amended): rule resolution iterates the caller's roles followed by
ALL and takes the first role that yields a rule; for one role the resolver
returns an active rule of the requested type applicable to that role with
the lowest priority number among all such rules, and `none` exactly when no
active rule of the type is applicable.  Because an ALL-targeted rule is
applicable to every role, the per-role minimum ranges over ALL rules too:
role-specific rules win only through priority, not unconditionally. -/
theorem resolucion_reglas_caracterizacion (s : Store) (tipo rol : String)
    (roles : List String) :
    (∀ r, obtener_regla_activa s tipo rol = some r →
      r ∈ s.reglas ∧ r.activa = true ∧ r.tipo_regla = tipo ∧
      es_aplicable_a_rol r rol = true ∧
      ∀ r2 ∈ s.reglas, r2.activa = true → r2.tipo_regla = tipo →
        es_aplicable_a_rol r2 rol = true → r.prioridad ≤ r2.prioridad) ∧
    (obtener_regla_activa s tipo rol = none ↔
      ∀ r ∈ s.reglas, r.activa = true → r.tipo_regla = tipo →
        es_aplicable_a_rol r rol = false) ∧
    (∀ regla, obtener_regla_activa s tipo rol = some regla →
      primera_regla s tipo (rol :: roles) = some regla) ∧
    (obtener_regla_activa s tipo rol = none →
      primera_regla s tipo (rol :: roles) = primera_regla s tipo roles) := by
  refine ⟨?_, ?_, ?_, ?_⟩
  · intro r hf
    unfold obtener_regla_activa at hf
    have hmem := mem_reglas_activas_ordenadas.mp (List.mem_of_find?_eq_some hf)
    refine ⟨hmem.1, hmem.2.2, hmem.2.1, ?_, ?_⟩
    · have happ := List.find?_some hf
      simpa using happ
    intro r2 h2m h2a h2t h2r
    exact find?_min_prioridad (sorted_reglas_activas_ordenadas s tipo) hf r2
      (mem_reglas_activas_ordenadas.mpr ⟨h2m, h2t, h2a⟩) h2r
  · unfold obtener_regla_activa
    rw [List.find?_eq_none]
    constructor
    · intro h r hm ha ht
      have := h r (mem_reglas_activas_ordenadas.mpr ⟨hm, ht, ha⟩)
      simpa using this
    · intro h r hm
      have hm2 := mem_reglas_activas_ordenadas.mp hm
      simp [h r hm2.1 hm2.2.2 hm2.2.1]
  · intro regla hf
    simp [primera_regla, List.findSome?_cons, hf]
  · intro hf
    simp [primera_regla, List.findSome?_cons, hf]

/-- Fixture: an ALL-targeted minimum-lead-time rule with priority 1. -/
def reglaTodosPrio1 : ReglasReprogramacion :=
  { reglaBase with
    nombre := "todos", tipo_regla := "TIEMPO_MINIMO", aplicable_a := "ALL",
    prioridad := 1, valor_numerico := some 48 }

/-- Fixture: a CLIENTE-targeted minimum-lead-time rule with priority 2. -/
def reglaClientePrio2 : ReglasReprogramacion :=
  { reglaBase with
    nombre := "cliente", tipo_regla := "TIEMPO_MINIMO", aplicable_a := "CLIENTE",
    prioridad := 2, valor_numerico := some 24 }

/-- Fixture: both rules active in one store. -/
def storeRolVsPrioridad : Store :=
  { storeVacia with reglas := [reglaClientePrio2, reglaTodosPrio1] }

/-- Counterexample to C1 as stated: with an active CLIENTE-specific rule of
priority 2 and an active ALL rule of priority 1, resolution for a CLIENTE
caller returns the ALL rule — the role-specific active rule is *not*
selected in preference to the ALL-targeted one, because an ALL rule is
applicable to every role and the priority order decides within the first
role queried. -/
theorem resolucion_prioridad_sobre_rol_contraejemplo :
    obtener_regla_activa storeRolVsPrioridad "TIEMPO_MINIMO" "CLIENTE" =
      some reglaTodosPrio1 ∧
    primera_regla storeRolVsPrioridad "TIEMPO_MINIMO" ["CLIENTE", "ALL"] =
      some reglaTodosPrio1 ∧
    reglaTodosPrio1.aplicable_a = "ALL" ∧
    reglaClientePrio2.aplicable_a = "CLIENTE" ∧
    reglaClientePrio2 ∈ storeRolVsPrioridad.reglas ∧
    reglaClientePrio2.activa = true ∧
    reglaClientePrio2.tipo_regla = "TIEMPO_MINIMO" ∧
    es_aplicable_a_rol reglaClientePrio2 "CLIENTE" = true ∧
    reglaTodosPrio1 ≠ reglaClientePrio2 := by decide

/-- Witness for C1 (amended) at the two-rule fixture: the resolved rule has
minimal priority among the applicable ones, and heads the role walk. -/
theorem resolucion_reglas_caracterizacion_witness :
    reglaTodosPrio1.prioridad ≤ reglaClientePrio2.prioridad ∧
    primera_regla storeRolVsPrioridad "TIEMPO_MINIMO" ["CLIENTE", "ALL"] =
      some reglaTodosPrio1 :=
  ⟨((resolucion_reglas_caracterizacion storeRolVsPrioridad "TIEMPO_MINIMO" "CLIENTE"
        ["ALL"]).1 reglaTodosPrio1 (by decide)).2.2.2.2 reglaClientePrio2
      (by decide) (by decide) (by decide) (by decide),
   (resolucion_reglas_caracterizacion storeRolVsPrioridad "TIEMPO_MINIMO" "CLIENTE"
        ["ALL"]).2.2.1 reglaTodosPrio1 (by decide)⟩
/-- The cross-multiplied lead-time test agrees with the exact rational
comparison `dt ≤ 60·h` (minutes against hours). -/
theorem leHoras_iff (dt : ℤ) (h : ℚ) : leHoras dt h = true ↔ (dt : ℚ) ≤ 60 * h := by
  have hdpos : (0 : ℚ) < (h.den : ℚ) := by
    exact_mod_cast h.den_pos
  have hmul : h * (h.den : ℚ) = (h.num : ℚ) := by
    nth_rewrite 1 [← Rat.num_div_den h]
    exact div_mul_cancel₀ _ (ne_of_gt hdpos)
  unfold leHoras
  rw [decide_eq_true_eq]
  constructor
  · intro hz
    have hq : (dt : ℚ) * (h.den : ℚ) ≤ 60 * (h.num : ℚ) := by exact_mod_cast hz
    have hq2 : (dt : ℚ) * (h.den : ℚ) ≤ 60 * h * (h.den : ℚ) := by
      rw [mul_assoc, hmul]
      exact hq
    exact le_of_mul_le_mul_right hq2 hdpos
  · intro hq
    have hq2 : (dt : ℚ) * (h.den : ℚ) ≤ 60 * h * (h.den : ℚ) :=
      mul_le_mul_of_nonneg_right hq (le_of_lt hdpos)
    rw [mul_assoc, hmul] at hq2
    exact_mod_cast hq2

/-- The cross-multiplied strict test agrees with `60·h < dt`. -/
theorem gtHoras_iff (dt : ℤ) (h : ℚ) : gtHoras dt h = true ↔ 60 * h < (dt : ℚ) := by
  have hdpos : (0 : ℚ) < (h.den : ℚ) := by
    exact_mod_cast h.den_pos
  have hmul : h * (h.den : ℚ) = (h.num : ℚ) := by
    nth_rewrite 1 [← Rat.num_div_den h]
    exact div_mul_cancel₀ _ (ne_of_gt hdpos)
  unfold gtHoras
  rw [decide_eq_true_eq]
  constructor
  · intro hz
    have hq : 60 * (h.num : ℚ) < (dt : ℚ) * (h.den : ℚ) := by exact_mod_cast hz
    have hq2 : 60 * h * (h.den : ℚ) < (dt : ℚ) * (h.den : ℚ) := by
      rw [mul_assoc, hmul]
      exact hq
    exact lt_of_mul_lt_mul_right hq2 (le_of_lt hdpos)
  · intro hq
    have hq2 : 60 * h * (h.den : ℚ) < (dt : ℚ) * (h.den : ℚ) :=
      mul_lt_mul_of_pos_right hq hdpos
    rw [mul_assoc, hmul] at hq2
    exact_mod_cast hq2

/-- Counterexample to C2 as stated: with an empty rule store (so no
MIN_LEAD_TIME and no MAX_LEAD_TIME is configured) the Validation
Orchestrator reports no violation at all for a candidate one hour from now,
although `now + 1h ≤ now + 24h`: the orchestrator enforces no 24-hour
default (and, the max walk resolving no rule, no 1-year default either). -/
theorem orquestador_sin_defaults_contraejemplo :
    primera_regla storeVacia "TIEMPO_MINIMO" ["ALL"] = none ∧
    primera_regla storeVacia "TIEMPO_MAXIMO" ["ALL"] = none ∧
    ((60 : ℤ) - 0 ≤ 60 * 24) ∧
    resultado_errores
      ((validar_reprogramacion_completa storeVacia none reservaBase 60 "" 0
        ⟨[], []⟩).2) = some [] ∧
    resultado_valida
      ((validar_reprogramacion_completa storeVacia none reservaBase 60 "" 0
        ⟨[], []⟩).2) = some true := by decide

/-- C2 (amended): the Validation Orchestrator applies no defaults — when its
walk resolves no MIN_LEAD_TIME (resp. MAX_LEAD_TIME) rule the lead-time step
adds no violation.  The 24-hour-minimum and 1-year-maximum defaults are
enforced by the reschedule serializer `validate_nueva_fecha` used by the
HTTP endpoints: with no MIN rule a candidate at or before `now + 24h` is
rejected, and with no MAX rule a candidate after `now + 365·24h` is
rejected. -/
theorem defaults_de_tiempo_en_serializer (s : Store) (usuario : Option Usuario)
    (roles : List String) (ahora nueva_fecha : ℤ) (errs : List String) :
    (primera_regla s "TIEMPO_MINIMO" (roles_de_usuario usuario) = none →
      aplicar_tiempo_minimo s (roles_de_usuario usuario) ahora nueva_fecha errs = errs) ∧
    (primera_regla s "TIEMPO_MAXIMO" (roles_de_usuario usuario) = none →
      aplicar_tiempo_maximo s (roles_de_usuario usuario) ahora nueva_fecha errs = errs) ∧
    (primera_regla s "TIEMPO_MINIMO" (roles ++ ["ALL"]) = none →
      nueva_fecha ≤ ahora + 60 * 24 →
      (validate_nueva_fecha s roles ahora nueva_fecha).isOk = false) ∧
    (primera_regla s "TIEMPO_MAXIMO" (roles ++ ["ALL"]) = none →
      ahora + 60 * (365 * 24) < nueva_fecha →
      (validate_nueva_fecha s roles ahora nueva_fecha).isOk = false) := by
  refine ⟨?_, ?_, ?_, ?_⟩
  · intro hnone
    simp [aplicar_tiempo_minimo, hnone]
  · intro hnone
    simp [aplicar_tiempo_maximo, hnone]
  · intro hnone hle
    by_cases hpast : nueva_fecha ≤ ahora
    · simp [validate_nueva_fecha, hpast, Res.isOk]
    · have hcond : leHoras (nueva_fecha - ahora) (24 : ℚ) = true := by
        have hz : nueva_fecha - ahora ≤ 60 * 24 := by omega
        rw [leHoras_iff]
        exact_mod_cast hz
      simp [validate_nueva_fecha, hpast, hnone, toNum?, hcond, Res.isOk]
  · intro hnone hgt
    by_cases hpast : nueva_fecha ≤ ahora
    · simp [validate_nueva_fecha, hpast, Res.isOk]
    · have hcond : gtHoras (nueva_fecha - ahora) (8760 : ℚ) = true := by
        have hz : 60 * 8760 < nueva_fecha - ahora := by omega
        rw [gtHoras_iff]
        exact_mod_cast hz
      simp only [validate_nueva_fecha, hnone, if_neg hpast]
      cases htm : toNum? ((match primera_regla s "TIEMPO_MINIMO" (roles ++ ["ALL"]) with
          | some regla => obtener_valor s.json_loads regla
          | none => none).getD (PyValue.int 24)) with
      | none => simp [htm, toNum?, hcond, Res.isOk]
      | some hmn =>
        by_cases hl : leHoras (nueva_fecha - ahora) hmn = true
        · simp [htm, hl, Res.isOk]
        · simp [htm, hl, toNum?, hcond, Res.isOk]

/-- Witness for C2 (amended) at the empty store: with no rules at all the
orchestrator's lead-time steps add nothing, while the serializer rejects a
candidate 1 h ahead (24 h default) and one 9000 h ahead (1-year default). -/
theorem defaults_de_tiempo_en_serializer_witness :
    aplicar_tiempo_minimo storeVacia ["ALL"] 0 60 [] = [] ∧
    aplicar_tiempo_maximo storeVacia ["ALL"] 0 60 [] = [] ∧
    (validate_nueva_fecha storeVacia [] 0 60).isOk = false ∧
    (validate_nueva_fecha storeVacia [] 0 540000).isOk = false :=
  ⟨(defaults_de_tiempo_en_serializer storeVacia none [] 0 60 []).1 (by decide),
   (defaults_de_tiempo_en_serializer storeVacia none [] 0 60 []).2.1 (by decide),
   (defaults_de_tiempo_en_serializer storeVacia none [] 0 60 []).2.2.1 (by decide)
     (by decide),
   (defaults_de_tiempo_en_serializer storeVacia none [] 0 540000 []).2.2.2 (by decide)
     (by decide)⟩

/-- Fixture: MIN_LEAD_TIME = 24 h for role ALL, custom message, active. -/
def reglaMin24 : ReglasReprogramacion :=
  { reglaBase with
    nombre := "min24", tipo_regla := "TIEMPO_MINIMO", aplicable_a := "ALL",
    valor_numerico := some 24, mensaje_error := some "msg_min" }

/-- Fixture: a store whose only rule is `reglaMin24`. -/
def storeMin24 : Store := { storeVacia with reglas := [reglaMin24] }

/-- Fixture: a caller holding the CLIENTE role. -/
def clienteU : Usuario := { id := 1, roles := ["CLIENTE"] }

/-- C3: when the role walk resolves a MIN_LEAD_TIME rule with numeric value
`h`, the orchestrator's minimum-lead-time step appends its violation exactly
when `candidate ≤ now + h` hours — the boundary is invalid, the test being a
strict `<=`.  In particular, with MIN_LEAD_TIME = 24 for ALL and no
CLIENTE-specific rule, a CLIENTE candidate at now + 23 h (and at exactly
now + 24 h) is invalid, while one at now + 25 h yields no violation and a
valid verdict. -/
theorem tiempo_minimo_estricto (s : Store) (roles : List String)
    (ahora nueva_fecha : ℤ) (errs : List String)
    (regla : ReglasReprogramacion) (h : ℚ)
    (hr : primera_regla s "TIEMPO_MINIMO" roles = some regla)
    (hv : (obtener_valor s.json_loads regla).bind toNum? = some h) :
    (aplicar_tiempo_minimo s roles ahora nueva_fecha errs =
      if (nueva_fecha : ℚ) ≤ (ahora : ℚ) + 60 * h then
        errs ++ [mensaje_o regla
          ("Debe reprogramar con al menos " ++ fmtNum h ++ " horas de anticipación.")]
      else errs) ∧
    resultado_errores ((validar_reprogramacion_completa storeMin24 (some clienteU)
      reservaBase (60 * 23) "" 0 ⟨[], []⟩).2) = some ["msg_min"] ∧
    resultado_errores ((validar_reprogramacion_completa storeMin24 (some clienteU)
      reservaBase (60 * 24) "" 0 ⟨[], []⟩).2) = some ["msg_min"] ∧
    resultado_errores ((validar_reprogramacion_completa storeMin24 (some clienteU)
      reservaBase (60 * 25) "" 0 ⟨[], []⟩).2) = some [] ∧
    resultado_valida ((validar_reprogramacion_completa storeMin24 (some clienteU)
      reservaBase (60 * 25) "" 0 ⟨[], []⟩).2) = some true := by
  refine ⟨?_, by decide, by decide, by decide, by decide⟩
  unfold aplicar_tiempo_minimo
  rw [hr]
  simp only [hv]
  by_cases hc : (nueva_fecha : ℚ) ≤ (ahora : ℚ) + 60 * h
  · have hb : leHoras (nueva_fecha - ahora) h = true := by
      rw [leHoras_iff]
      push_cast
      linarith
    simp [hb, hc]
  · have hb : leHoras (nueva_fecha - ahora) h = false := by
      rw [Bool.eq_false_iff, Ne, leHoras_iff]
      push_cast
      intro hcontra
      exact hc (by linarith)
    simp [hb, hc]

/-- Witness for C3 at the MIN-24-for-ALL fixture: 23 h ahead trips the
violation, 25 h ahead does not. -/
theorem tiempo_minimo_estricto_witness :
    aplicar_tiempo_minimo storeMin24 ["CLIENTE", "ALL"] 0 1380 [] = ["msg_min"] ∧
    aplicar_tiempo_minimo storeMin24 ["CLIENTE", "ALL"] 0 1500 [] = [] := by
  have h1 := (tiempo_minimo_estricto storeMin24 ["CLIENTE", "ALL"] 0 1380 [] reglaMin24
    ((24 : ℤ) : ℚ) (by decide) (by decide)).1
  have h2 := (tiempo_minimo_estricto storeMin24 ["CLIENTE", "ALL"] 0 1500 [] reglaMin24
    ((24 : ℤ) : ℚ) (by decide) (by decide)).1
  constructor
  · rw [h1, if_pos (by norm_num)]
    decide
  · rw [h2, if_neg (by norm_num)]

/-- Whenever every rule the DIAS_BLACKOUT walk can resolve carries a
non-list value, the days-blackout step returns the error list unchanged and
raises nothing (this also covers the walk resolving no rule at all). -/
theorem aplicar_dias_blackout_ok (s : Store) (roles : List String) (nueva_fecha : ℤ)
    (errs : List String)
    (hnl : ∀ regla, primera_regla s "DIAS_BLACKOUT" roles = some regla →
      ∀ l, obtener_valor s.json_loads regla ≠ some (PyValue.list l)) :
    aplicar_dias_blackout s roles nueva_fecha errs = .ok errs := by
  unfold aplicar_dias_blackout
  cases hr : primera_regla s "DIAS_BLACKOUT" roles with
  | none => rfl
  | some regla =>
    cases hov : obtener_valor s.json_loads regla with
    | none => simp [hov]
    | some v =>
      cases v with
      | list l => exact absurd hov (hnl regla hr l)
      | int n => simp [hov]
      | float q => simp [hov]
      | bool b => simp [hov]
      | str t => simp [hov]
      | other => simp [hov]

/-- When the DIAS_BLACKOUT walk resolves a rule whose value is exactly the
weekday list `["domingo"]`, a candidate falling on a Sunday (weekday 6)
makes the days-blackout step append precisely its violation message. -/
theorem aplicar_dias_blackout_domingo (s : Store) (roles : List String)
    (nueva_fecha : ℤ) (errs : List String) (regla : ReglasReprogramacion)
    (hr : primera_regla s "DIAS_BLACKOUT" roles = some regla)
    (hv : obtener_valor s.json_loads regla = some (PyValue.list [PyAtom.str "domingo"]))
    (hdom : weekdayOf nueva_fecha = 6) :
    aplicar_dias_blackout s roles nueva_fecha errs =
      .ok (errs ++ [mensaje_o regla "No se puede reprogramar en domingo."]) := by
  have hall : ([PyAtom.str "domingo"].all (fun d => (atomStr? d).isSome)) = true := by
    decide
  have hget : List.getD
      ["lunes", "martes", "miercoles", "jueves", "viernes", "sabado", "domingo"]
      (Int.toNat 6) "" = "domingo" := by decide
  have hcont : (([PyAtom.str "domingo"].filterMap atomStr?).map strLower).contains
      "domingo" = true := by decide
  have hstr : "No se puede reprogramar en " ++ "domingo" ++ "." =
      "No se puede reprogramar en domingo." := by decide
  unfold aplicar_dias_blackout
  simp only [hr, hv, hall, hdom, hget, hcont, hstr, if_true]

/-- The hours-blackout step only ever appends: it keeps every error already
accumulated. -/
theorem mem_aplicar_horas_blackout (s : Store) (roles : List String) (nf : ℤ)
    (errs : List String) (e : String) (he : e ∈ errs) :
    e ∈ aplicar_horas_blackout s roles nf errs := by
  simp only [aplicar_horas_blackout]
  repeat' split
  all_goals first
  | exact he
  | exact List.mem_append_left _ he

/-- The restricted-services step only ever appends. -/
theorem mem_aplicar_reglas_servicios (s : Store) (roles : List String)
    (reserva : Reserva) (errs : List String) (e : String) (he : e ∈ errs) :
    e ∈ aplicar_reglas_servicios s roles reserva errs := by
  simp only [aplicar_reglas_servicios]
  repeat' split
  all_goals first
  | exact he
  | exact List.mem_append_left _ he

/-- The capacity step only ever appends. -/
theorem mem_aplicar_reglas_capacidad (s : Store) (roles : List String) (nf : ℤ)
    (reserva : Reserva) (errs : List String) (e : String) (he : e ∈ errs) :
    e ∈ aplicar_reglas_capacidad s roles nf reserva errs := by
  simp only [aplicar_reglas_capacidad]
  repeat' split
  all_goals first
  | exact he
  | exact List.mem_append_left _ he

/-- Fixture: a DIAS_BLACKOUT rule whose value is the Spanish weekday list
`["domingo"]`, decoded from its text column by the JSON collaborator
(`jsonDomingo` models `json.loads` at exactly that input). -/
def reglaDomingos : ReglasReprogramacion :=
  { reglaBase with
    nombre := "domingos", tipo_regla := "DIAS_BLACKOUT", aplicable_a := "ALL",
    valor_texto := some "[\"domingo\"]", mensaje_error := some "msg_blackout" }

/-- Fixture: the decoder for `reglaDomingos`'s text value. -/
def jsonDomingo : String → Option PyValue :=
  fun t => if t = "[\"domingo\"]" then some (PyValue.list [PyAtom.str "domingo"]) else none

/-- Fixture: a store whose only rule blacks out Sundays. -/
def storeDomingos : Store :=
  { reglas := [reglaDomingos], reservas := [], historial := [], json_loads := jsonDomingo }

/-- C4: for every evaluation whose DIAS_BLACKOUT walk resolves a rule whose
value is the weekday list naming Sunday (the engine's day vocabulary is the
Spanish `"domingo"`), every candidate falling on a Sunday (weekday 6)
produces the rule's violation in the returned verdict; and whenever a
resolved BLACKOUT_DAYS or BLACKOUT_HOURS rule carries a malformed
(non-list) value, the corresponding step produces no violation and no
fault, and the whole evaluation still returns a verdict. -/
theorem blackout_domingo_y_fail_open :
    (∀ (s : Store) (usuario : Option Usuario) (reserva : Reserva) (nueva_fecha : ℤ)
      (motivo : String) (ahora : ℤ) (st : ValidadorState)
      (regla : ReglasReprogramacion),
      primera_regla s "DIAS_BLACKOUT" (roles_de_usuario usuario) = some regla →
      obtener_valor s.json_loads regla = some (PyValue.list [PyAtom.str "domingo"]) →
      weekdayOf nueva_fecha = 6 →
      ∃ res, (validar_reprogramacion_completa s usuario reserva nueva_fecha motivo
          ahora st).2 = .ok res ∧
        mensaje_o regla "No se puede reprogramar en domingo." ∈ res.errores) ∧
    (resultado_errores ((validar_reprogramacion_completa storeDomingos none reservaBase
      9240 "" 0 ⟨[], []⟩).2) = some ["msg_blackout"]) ∧
    (∀ (s : Store) (roles : List String) (nueva_fecha : ℤ) (errs : List String)
      (regla : ReglasReprogramacion),
      primera_regla s "DIAS_BLACKOUT" roles = some regla →
      (∀ l, obtener_valor s.json_loads regla ≠ some (PyValue.list l)) →
      aplicar_dias_blackout s roles nueva_fecha errs = .ok errs) ∧
    (∀ (s : Store) (roles : List String) (nueva_fecha : ℤ) (errs : List String)
      (regla : ReglasReprogramacion),
      primera_regla s "HORAS_BLACKOUT" roles = some regla →
      (∀ l, obtener_valor s.json_loads regla ≠ some (PyValue.list l)) →
      aplicar_horas_blackout s roles nueva_fecha errs = errs) ∧
    (∀ (s : Store) (usuario : Option Usuario) (reserva : Reserva) (nueva_fecha : ℤ)
      (motivo : String) (ahora : ℤ) (st : ValidadorState),
      (∀ regla, primera_regla s "DIAS_BLACKOUT" (roles_de_usuario usuario) = some regla →
        ∀ l, obtener_valor s.json_loads regla ≠ some (PyValue.list l)) →
      ((validar_reprogramacion_completa s usuario reserva nueva_fecha motivo ahora
        st).2).isOk = true) := by
  refine ⟨?_, by decide, ?_, ?_, ?_⟩
  · intro s usuario reserva nueva_fecha motivo ahora st regla hr hv hdom
    have hcomp : ∀ errs, aplicar_reglas_blackout s (roles_de_usuario usuario)
        nueva_fecha errs = .ok (aplicar_horas_blackout s (roles_de_usuario usuario)
          nueva_fecha (errs ++ [mensaje_o regla "No se puede reprogramar en domingo."])) := by
      intro errs
      unfold aplicar_reglas_blackout
      rw [aplicar_dias_blackout_domingo s (roles_de_usuario usuario) nueva_fecha errs
        regla hr hv hdom]
    simp only [validar_reprogramacion_completa, hcomp]
    refine ⟨_, rfl, ?_⟩
    apply mem_aplicar_reglas_capacidad
    apply mem_aplicar_reglas_servicios
    apply mem_aplicar_horas_blackout
    exact List.mem_append_right _ (List.mem_singleton.mpr rfl)
  · intro s roles nueva_fecha errs regla hr hnl
    exact aplicar_dias_blackout_ok s roles nueva_fecha errs
      (fun regla2 hr2 => by
        rw [hr] at hr2
        cases hr2
        exact hnl)
  · intro s roles nueva_fecha errs regla hr hnl
    unfold aplicar_horas_blackout
    rw [hr]
    cases hov : obtener_valor s.json_loads regla with
    | none => simp [hov]
    | some v =>
      cases v with
      | list l => exact absurd hov (hnl l)
      | int n => simp [hov]
      | float q => simp [hov]
      | bool b => simp [hov]
      | str t => simp [hov]
      | other => simp [hov]
  · intro s usuario reserva nueva_fecha motivo ahora st hnl
    have hbl : ∀ errs, aplicar_reglas_blackout s (roles_de_usuario usuario) nueva_fecha errs =
        .ok (aplicar_horas_blackout s (roles_de_usuario usuario) nueva_fecha errs) := by
      intro errs
      unfold aplicar_reglas_blackout
      rw [aplicar_dias_blackout_ok s (roles_de_usuario usuario) nueva_fecha errs hnl]
    simp only [validar_reprogramacion_completa, hbl]
    rfl

/-- Fixture: a DIAS_BLACKOUT rule whose text value is not JSON (decodes to
the raw string, which is not a list). -/
def reglaDiasTexto : ReglasReprogramacion :=
  { reglaBase with
    nombre := "dias_texto", tipo_regla := "DIAS_BLACKOUT", aplicable_a := "ALL",
    valor_texto := some "no es json" }

/-- Fixture: a HORAS_BLACKOUT rule whose text value is likewise non-list. -/
def reglaHorasTexto : ReglasReprogramacion :=
  { reglaBase with
    nombre := "horas_texto", tipo_regla := "HORAS_BLACKOUT", aplicable_a := "ALL",
    valor_texto := some "tampoco json" }

/-- Fixture: both malformed blackout rules active in one store. -/
def storeBlackoutTexto : Store :=
  { storeVacia with reglas := [reglaDiasTexto, reglaHorasTexto] }

/-- Witness for C4: the Sunday-violation part lands at the `["domingo"]`
fixture, and at malformed blackout rules neither step adds a violation,
nothing is raised, and the full evaluation returns a verdict. -/
theorem blackout_domingo_y_fail_open_witness :
    (∃ res, (validar_reprogramacion_completa storeDomingos none reservaBase 9240 "" 0
        ⟨[], []⟩).2 = .ok res ∧
      mensaje_o reglaDomingos "No se puede reprogramar en domingo." ∈ res.errores) ∧
    aplicar_dias_blackout storeBlackoutTexto ["ALL"] 9240 [] = .ok [] ∧
    aplicar_horas_blackout storeBlackoutTexto ["ALL"] 9240 [] = [] ∧
    ((validar_reprogramacion_completa storeBlackoutTexto none reservaBase 9240 "" 0
      ⟨[], []⟩).2).isOk = true :=
  ⟨blackout_domingo_y_fail_open.1 storeDomingos none reservaBase 9240 "" 0 ⟨[], []⟩
    reglaDomingos (by decide) (by decide) (by decide),
   blackout_domingo_y_fail_open.2.2.1 storeBlackoutTexto ["ALL"] 9240 [] reglaDiasTexto
    (by decide)
    (by
      intro l hlist
      have hval : obtener_valor storeBlackoutTexto.json_loads reglaDiasTexto =
          some (PyValue.str "no es json") := by decide
      rw [hval] at hlist
      simp at hlist),
   blackout_domingo_y_fail_open.2.2.2.1 storeBlackoutTexto ["ALL"] 9240 []
    reglaHorasTexto
    (by decide)
    (by
      intro l hlist
      have hval : obtener_valor storeBlackoutTexto.json_loads reglaHorasTexto =
          some (PyValue.str "tampoco json") := by decide
      rw [hval] at hlist
      simp at hlist),
   blackout_domingo_y_fail_open.2.2.2.2 storeBlackoutTexto none reservaBase 9240 "" 0
    ⟨[], []⟩
    (by
      intro regla hr l hlist
      have hr2 : primera_regla storeBlackoutTexto "DIAS_BLACKOUT" ["ALL"] =
          some reglaDiasTexto := by decide
      rw [show roles_de_usuario none = ["ALL"] from rfl, hr2] at hr
      cases hr
      have hval : obtener_valor storeBlackoutTexto.json_loads reglaDiasTexto =
          some (PyValue.str "no es json") := by decide
      rw [hval] at hlist
      simp at hlist)⟩

/-- The percentage the penalty step resolves: the first rule of the role
walk with a numeric value, else 0 (also 0 when the resolved rule's value is
non-numeric) — this is the `penalizacion_pct` computation of the source. -/
def porcentaje_penalizacion (s : Store) (roles : List String) : ℚ :=
  match primera_regla s "DESCUENTO_PENALIZACION" roles with
  | some regla => ((obtener_valor s.json_loads regla).bind toNum?).getD 0
  | none => 0

/-- The amended claim's penalty formula, stated from its words: the amount
is `total · pct/100` when `pct > 0` and 0 otherwise; the penalty applies
exactly when `pct > 0`; the total with penalty adds the amount. -/
def penalizacion_spec (pct total : ℚ) : Penalizacion :=
  { aplica_penalizacion := decide (0 < pct)
    porcentaje := pct
    monto := if 0 < pct then total * (pct / 100) else 0
    total_con_penalizacion := total + (if 0 < pct then total * (pct / 100) else 0) }

/-- Fixture: a PENALTY_PERCENT rule of −10 for ALL. -/
def reglaPenalizacionNegativa : ReglasReprogramacion :=
  { reglaBase with
    nombre := "pen_neg", tipo_regla := "DESCUENTO_PENALIZACION",
    aplicable_a := "ALL", valor_numerico := some (-10) }

/-- Fixture: a store whose only rule is the −10 % penalty. -/
def storePenalizacionNegativa : Store :=
  { storeVacia with reglas := [reglaPenalizacionNegativa] }

/-- Counterexample to C8 as stated: with a configured PENALTY_PERCENT of −10
and booking total 1000, the code computes amount 0 (the multiplication runs
only when the percentage is strictly positive), while the claim's formula
`amount = total · pct/100` demands −100. -/
theorem penalizacion_negativa_contraejemplo :
    (calcular_penalizacion storePenalizacionNegativa ["ALL"] reservaBase).porcentaje =
      -10 ∧
    (calcular_penalizacion storePenalizacionNegativa ["ALL"] reservaBase).monto = 0 ∧
    reservaBase.total * ((-10 : ℚ) / 100) = -100 ∧
    (calcular_penalizacion storePenalizacionNegativa ["ALL"] reservaBase).monto ≠
      reservaBase.total * ((-10 : ℚ) / 100) := by
  have hw : primera_regla storePenalizacionNegativa "DESCUENTO_PENALIZACION" ["ALL"] =
      some reglaPenalizacionNegativa := by decide
  have hv : (obtener_valor storePenalizacionNegativa.json_loads
      reglaPenalizacionNegativa).bind toNum? = some ((-10 : ℤ) : ℚ) := by decide
  have hcal : calcular_penalizacion storePenalizacionNegativa ["ALL"] reservaBase =
      { aplica_penalizacion := false, porcentaje := -10, monto := 0,
        total_con_penalizacion := 1000 } := by
    unfold calcular_penalizacion
    rw [hw]
    norm_num [hv, reservaBase]
  rw [hcal]
  norm_num [reservaBase]

/-- Fixture: a PENALTY_PERCENT rule of 5 for CLIENTE. -/
def reglaPenalizacion5 : ReglasReprogramacion :=
  { reglaBase with
    nombre := "pen5", tipo_regla := "DESCUENTO_PENALIZACION",
    aplicable_a := "CLIENTE", valor_numerico := some 5 }

/-- Fixture: a store whose only rule is the 5 % CLIENTE penalty. -/
def storePenalizacion5 : Store :=
  { storeVacia with reglas := [reglaPenalizacion5] }

/-- C8 (amended): the penalty component resolves PENALTY_PERCENT over the
role walk with default 0 and equals the specification record whose amount is
`total · pct/100` when `pct > 0` and 0 otherwise (a negative configured
percent thus yields amount 0), whose `appliesPenalty` holds exactly when
`pct > 0`, and whose total adds the amount; in particular total 1000 with a
5 % rule governing a CLIENTE caller gives
`{appliesPenalty := true, percent := 5, amount := 50, total := 1050}`. -/
theorem calcular_penalizacion_refinamiento (s : Store) (roles : List String)
    (reserva : Reserva) :
    calcular_penalizacion s roles reserva =
      penalizacion_spec (porcentaje_penalizacion s roles) reserva.total ∧
    calcular_penalizacion storePenalizacion5 ["CLIENTE", "ALL"] reservaBase =
      { aplica_penalizacion := true, porcentaje := 5, monto := 50,
        total_con_penalizacion := 1050 } := by
  constructor
  · rfl
  · have hw : primera_regla storePenalizacion5 "DESCUENTO_PENALIZACION"
        ["CLIENTE", "ALL"] = some reglaPenalizacion5 := by decide
    have hv : (obtener_valor storePenalizacion5.json_loads reglaPenalizacion5).bind
        toNum? = some ((5 : ℤ) : ℚ) := by decide
    unfold calcular_penalizacion
    rw [hw]
    norm_num [hv, reservaBase]

/-- The object-level serializer check rejects every candidate sharing the
booking's current calendar date, whatever the rule configuration (any
earlier rejection — cancelled state or reschedule limit — also rejects). -/
theorem serializer_validate_misma_fecha (s : Store) (roles : List String)
    (reserva : Reserva) (nueva_fecha : ℤ)
    (h : dateOf nueva_fecha = dateOf reserva.fecha_inicio) :
    (serializer_validate s roles reserva nueva_fecha).isOk = false := by
  unfold serializer_validate
  by_cases hcanc : reserva.estado = "CANCELADA"
  · simp [hcanc, Res.isOk]
  · simp only [if_neg hcanc]
    split
    · rfl
    · rw [if_pos h]
      rfl

/-- C10: through the public reschedule endpoint, a candidate whose calendar
date equals the booking's current start date is rejected by serializer
validation before any commit — `reprogramar_action` returns a validation
error, for every rule configuration and every availability outcome. -/
theorem misma_fecha_rechazada (s : Store) (roles : List String) (usuario_id : ℕ)
    (reserva : Reserva) (nueva_fecha : ℤ) (motivo : String) (ahora : ℤ)
    (fecha_disponible : ℤ → Reserva → Bool) (nc ns : Bool)
    (h : dateOf nueva_fecha = dateOf reserva.fecha_inicio) :
    (reprogramar_action s roles usuario_id reserva nueva_fecha motivo ahora
      fecha_disponible nc ns).isOk = false := by
  unfold reprogramar_action serializer_is_valid
  cases hv : validate_nueva_fecha s roles ahora nueva_fecha with
  | err m => rfl
  | ok u =>
    cases hsv : serializer_validate s roles reserva nueva_fecha with
    | err m => rfl
    | ok u2 =>
      have hfal := serializer_validate_misma_fecha s roles reserva nueva_fecha h
      rw [hsv] at hfal
      simp [Res.isOk] at hfal

/-- Fixture: a booking starting on day 100 at 00:01. -/
def reservaMismaFecha : Reserva := { reservaBase with fecha_inicio := 144060 }

/-- Witness for C10: moving that booking to day 100 at 00:00 — same
calendar date, every rule satisfied vacuously — is rejected. -/
theorem misma_fecha_rechazada_witness :
    (reprogramar_action storeVacia [] 1 reservaMismaFecha 144000 "" 0
      (fun _ _ => true) true true).isOk = false :=
  misma_fecha_rechazada storeVacia [] 1 reservaMismaFecha 144000 "" 0
    (fun _ _ => true) true true (by decide)

/-- What C5 asserts of one returned suggestion: its date independently
evaluates (unchanged store, fresh validator state) to an `ok`, valid verdict
whose availability/penalty data the entry records, and its score is the
claim's formula `max(0, 10 − |days|) + (5 if available else 0) +
(−2 if penalty applies else +2)`. -/
def sugerencia_valida (s : Store) (usuario : Option Usuario) (reserva : Reserva)
    (fecha_deseada : ℤ) (ahora : ℤ) (e : Sugerencia) : Prop :=
  ∃ res : Resultado,
    (validar_reprogramacion_completa s usuario reserva e.fecha "" ahora ⟨[], []⟩).2 =
      .ok res ∧
    res.valida = true ∧
    e.disponible = res.disponibilidad.disponible ∧
    e.conflictos = res.disponibilidad.conflictos ∧
    e.penalizacion = res.penalizacion ∧
    e.score = max 0 (10 - ((diasDelta e.fecha fecha_deseada).natAbs : ℤ)) +
      (if res.disponibilidad.disponible then 5 else 0) +
      (if res.penalizacion.aplica_penalizacion then -2 else 2)

/-- Loop invariant of the hour-probe loop: it only ever appends suggestions
built from a valid verdict at their own date. -/
theorem probar_horas_invariante (s : Store) (usuario : Option Usuario)
    (reserva : Reserva) (fecha_deseada : ℤ) (cantidad : ℕ) (ahora : ℤ)
    (fecha_candidata : ℤ) :
    ∀ (offs : List ℤ) (acc res : List Sugerencia),
    probar_horas s usuario reserva fecha_deseada cantidad ahora fecha_candidata offs acc =
      .ok res →
    (∀ e ∈ acc, sugerencia_valida s usuario reserva fecha_deseada ahora e) →
    (∀ e ∈ res, sugerencia_valida s usuario reserva fecha_deseada ahora e) := by
  intro offs
  induction offs with
  | nil =>
    intro acc res hrun hacc
    simp only [probar_horas] at hrun
    cases hrun
    exact hacc
  | cons o rest ih =>
    intro acc res hrun hacc
    simp only [probar_horas] at hrun
    cases hval : (validar_reprogramacion_completa s usuario reserva
        (fecha_candidata + minPerHour * o) "" ahora ⟨[], []⟩).2 with
    | err ex =>
      simp only [hval] at hrun
      cases hrun
    | ok resultado =>
      simp only [hval] at hrun
      have hnew : resultado.valida = true →
          sugerencia_valida s usuario reserva fecha_deseada ahora
            { fecha := fecha_candidata + minPerHour * o
              disponible := resultado.disponibilidad.disponible
              conflictos := resultado.disponibilidad.conflictos
              penalizacion := resultado.penalizacion
              score := calcular_score fecha_deseada (fecha_candidata + minPerHour * o)
                resultado } := by
        intro hvalida
        refine ⟨resultado, hval, hvalida, rfl, rfl, rfl, ?_⟩
        unfold calcular_score
        rfl
      by_cases hvalida : resultado.valida = true
      · rw [if_pos hvalida] at hrun
        set nuevo : Sugerencia :=
          { fecha := fecha_candidata + minPerHour * o
            disponible := resultado.disponibilidad.disponible
            conflictos := resultado.disponibilidad.conflictos
            penalizacion := resultado.penalizacion
            score := calcular_score fecha_deseada (fecha_candidata + minPerHour * o)
              resultado } with hnuevo
        have hmemcase : ∀ e ∈ acc ++ [nuevo],
            sugerencia_valida s usuario reserva fecha_deseada ahora e := by
          intro e he
          rcases List.mem_append.mp he with hm | hm
          · exact hacc e hm
          · rcases List.mem_singleton.mp hm with rfl
            exact hnew hvalida
        by_cases hlen : cantidad ≤ (acc ++ [nuevo]).length
        · rw [if_pos hlen] at hrun
          cases hrun
          exact hmemcase
        · rw [if_neg hlen] at hrun
          exact ih _ res hrun hmemcase
      · rw [if_neg hvalida] at hrun
        exact ih acc res hrun hacc

/-- Loop invariant of the day-scan loop, lifted from the hour loop. -/
theorem probar_dias_invariante (s : Store) (usuario : Option Usuario)
    (reserva : Reserva) (fecha_deseada : ℤ) (cantidad : ℕ) (ahora : ℤ) :
    ∀ (offs : List ℤ) (acc res : List Sugerencia),
    probar_dias s usuario reserva fecha_deseada cantidad ahora offs acc = .ok res →
    (∀ e ∈ acc, sugerencia_valida s usuario reserva fecha_deseada ahora e) →
    (∀ e ∈ res, sugerencia_valida s usuario reserva fecha_deseada ahora e) := by
  intro offs
  induction offs with
  | nil =>
    intro acc res hrun hacc
    simp only [probar_dias] at hrun
    cases hrun
    exact hacc
  | cons d rest ih =>
    intro acc res hrun hacc
    simp only [probar_dias] at hrun
    by_cases hd : d = 0
    · rw [if_pos hd] at hrun
      exact ih acc res hrun hacc
    · rw [if_neg hd] at hrun
      cases hh : probar_horas s usuario reserva fecha_deseada cantidad ahora
          (fecha_deseada + minPerDay * d) [0, 1, -1, 2, -2] acc with
      | err ex =>
        simp only [hh] at hrun
        cases hrun
      | ok acc2 =>
        simp only [hh] at hrun
        have hacc2 := probar_horas_invariante s usuario reserva fecha_deseada cantidad
          ahora (fecha_deseada + minPerDay * d) [0, 1, -1, 2, -2] acc acc2 hh hacc
        by_cases hlen : cantidad ≤ acc2.length
        · rw [if_pos hlen] at hrun
          cases hrun
          exact hacc2
        · rw [if_neg hlen] at hrun
          exact ih acc2 res hrun hacc2

/-- C5: whatever the recommendation generator returns contains at most
`cantidad` entries, every entry's date independently evaluates to a valid
verdict under the orchestrator with unchanged store state and carries the
score `max(0, 10 − |days between desired and candidate|) + (5 if available
else 0) + (−2 if penalty applies else +2)`, and the list is sorted by
non-increasing score. -/
theorem sugerencias_limite_validez_orden (s : Store) (reserva : Reserva)
    (fecha_deseada : ℤ) (usuario : Option Usuario) (cantidad : ℕ) (ahora : ℤ)
    (l : List Sugerencia)
    (h : sugerir_fechas_alternativas s reserva fecha_deseada usuario cantidad ahora =
      .ok l) :
    l.length ≤ cantidad ∧
    (∀ e ∈ l, sugerencia_valida s usuario reserva fecha_deseada ahora e) ∧
    l.Pairwise (fun a b => b.score ≤ a.score) := by
  unfold sugerir_fechas_alternativas at h
  cases hp : probar_dias s usuario reserva fecha_deseada cantidad ahora dias_offsets []
    with
  | err ex =>
    rw [hp] at h
    cases h
  | ok sugs =>
    rw [hp] at h
    cases h
    refine ⟨?_, ?_, ?_⟩
    · rw [List.length_take]
      exact min_le_left _ _
    · intro e he
      have h1 : e ∈ List.insertionSort (fun a b => b.score ≤ a.score) sugs :=
        List.take_subset _ _ he
      have h2 : e ∈ sugs := ((List.perm_insertionSort _ _).mem_iff).mp h1
      refine probar_dias_invariante s usuario reserva fecha_deseada cantidad ahora
        dias_offsets [] sugs hp ?_ e h2
      intro x hx
      exact absurd hx (List.not_mem_nil x)
    · haveI : IsTotal Sugerencia (fun a b => b.score ≤ a.score) :=
        ⟨fun a b => le_total _ _⟩
      haveI : IsTrans Sugerencia (fun a b => b.score ≤ a.score) :=
        ⟨fun _ _ _ hab hbc => le_trans hbc hab⟩
      have hs := List.sorted_insertionSort
        (fun a b : Sugerencia => b.score ≤ a.score) sugs
      exact List.Pairwise.sublist (List.take_sublist _ _) hs

/-- Fixture: a cancelled booking — every probe of the generator evaluates to
an invalid verdict, so the scan returns an empty suggestion list. -/
def reservaCancelada : Reserva := { reservaBase with estado := "CANCELADA" }

/-- Witness for C5: the full bounded scan over the cancelled booking
completes with the empty list, on which the theorem's bound is discharged. -/
theorem sugerencias_limite_validez_orden_witness :
    sugerir_fechas_alternativas storeVacia reservaCancelada 144000 none 5 0 =
      .ok [] ∧
    ([] : List Sugerencia).length ≤ 5 :=
  ⟨by decide,
   (sugerencias_limite_validez_orden storeVacia reservaCancelada 144000 none 5 0 []
     (by decide)).1⟩
